import Mathlib

/-!
Verification of the list-query construction and broadcast-consistency
component of a university-sports CRUD backend.

The development shallowly embeds:
  - `buildQueryOptions` from src/unnamed/part_003 (the query-utils module),
    which turns loosely-typed request parameters into a query descriptor
    with skip, take, orderBy and where components;
  - the route handlers of the results and users routers from
    src/unnamed/part_002, in particular their broadcast behavior, their
    error mapping, and the field sets they select for responses;
  - the uniqueness constraint of the Result model declared in
    src/backend/prisma/schema.prisma and the storage operations the result
    routes perform against it.

Numbers flowing through the builder are embedded as Int: the source calls
parseInt on values the TypeScript interface types as numbers, and
parseInt (n.toString()) is the identity on integers.  The source guards
each optional parameter with a JS truthiness test, under which the number
0 and the empty string are absent; the embedding makes those tests
explicit.
-/

namespace SportsBackend

/-- Sort direction accepted by the builder: the source type is the string
union of asc and desc. -/
inductive SortDir where
  | asc
  | desc
deriving DecidableEq, Repr

/-- The QueryOptions interface of src/unnamed/part_003 lines 328-338: every
recognized request parameter is optional. -/
structure QueryOptions where
  page : Option Int := none
  limit : Option Int := none
  sortBy : Option String := none
  sortDir : Option SortDir := none
  search : Option String := none
  gender : Option String := none
  role : Option String := none
  sportId : Option String := none
  universityId : Option String := none
deriving DecidableEq, Repr

/-- One disjunct of the search clause: the source builds, for each search
field, an object requiring that the field contain the search string with
mode insensitive (part_003 lines 352-354). -/
structure SearchClause where
  field : String
  contains : String
deriving DecidableEq, Repr

/-- The nested relation object the source assigns for the universityId
filter: where.sport is set to an object with a universityId key
(part_003 line 370). -/
structure SportRelWhere where
  universityId : String
deriving DecidableEq, Repr

/-- The where object accumulated by the builder.  The source builds a
dynamic dictionary; the keys it can ever assign are OR, gender, role,
sportId and sport (part_003 lines 350-371).  The key universityId is part
of the key space of the client models (Sport and User both carry a direct
universityId column in schema.prisma) but is never assigned by the
builder; it is carried here so that the absence of a direct universityId
constraint is expressible. -/
structure WhereClause where
  OR : Option (List SearchClause) := none
  gender : Option String := none
  role : Option String := none
  sportId : Option String := none
  sport : Option SportRelWhere := none
  universityId : Option String := none
deriving DecidableEq, Repr

/-- The descriptor returned by the builder (part_003 line 373). -/
structure QueryDescriptor where
  skip : Int
  take : Int
  orderBy : Option (String × SortDir)
  whereClause : WhereClause
deriving DecidableEq, Repr

/-- Effective page: the source line 341 is a truthiness test, so an absent
page or a page equal to 0 falls back to 1; any other number is used
unchanged. -/
def effPage : Option Int → Int
  | some n => if n = 0 then 1 else n
  | none => 1

/-- Effective limit: the source line 342 is a truthiness test, so an
absent limit or a limit equal to 0 falls back to 10; any other number is
used unchanged. -/
def effLimit : Option Int → Int
  | some n => if n = 0 then 10 else n
  | none => 10

/-- A present nonempty string filter value: the source guards each string
parameter with a truthiness test, under which the empty string counts as
absent. -/
def strFilter : Option String → Option String
  | some s => if s = "" then none else some s
  | none => none

/-- The OR component: when search is present and nonempty, one
case-insensitive contains clause per search field, in order
(part_003 lines 351-355); otherwise the key is not assigned. -/
def searchOr (search : Option String) (searchFields : List String) :
    Option (List SearchClause) :=
  match strFilter search with
  | some s => some (searchFields.map fun f => { field := f, contains := s })
  | none => none

/-- buildQueryOptions from src/unnamed/part_003 lines 340-374.  The
imperative source assigns each where key at most once, guarded by a
truthiness test on the corresponding parameter, so the accumulated object
equals the record whose components are computed independently:
OR from search (lines 351-355), gender (357-359), role (361-363),
sportId (365-367), and the nested sport.universityId object (369-371).
orderBy is the singleton mapping when sortBy is truthy (lines 345-348),
with sortDir defaulting to asc, and skip is (page - 1) * limit on the
effective page and limit (lines 341-343) with no clamping. -/
def buildQueryOptions (options : QueryOptions) (searchFields : List String) :
    QueryDescriptor :=
  let page := effPage options.page
  let limit := effLimit options.limit
  let skip := (page - 1) * limit
  let orderBy : Option (String × SortDir) :=
    match strFilter options.sortBy with
    | some s => some (s, options.sortDir.getD SortDir.asc)
    | none => none
  let w : WhereClause :=
    { OR := searchOr options.search searchFields
      gender := strFilter options.gender
      role := strFilter options.role
      sportId := strFilter options.sportId
      sport := (strFilter options.universityId).map fun u => { universityId := u }
      universityId := none }
  { skip := skip, take := limit, orderBy := orderBy, whereClause := w }

/-!
Semantics of the descriptor against the storage collaborator.  A stored
row is embedded as a partial assignment of string values to scalar column
names, together with the resolved sport relation when the queried model
has one (Fixture does; Sport and User do not carry a relation named
sport).
-/

/-- A stored row as the where clause sees it: scalar columns, plus the
related sport record resolved through the sport relation when the model
has that relation. -/
structure Row where
  attr : String → Option String
  sportRel : Option (String → Option String) := none

/-- Character-list prefix test, executable. -/
def matchesAt : List Char → List Char → Bool
  | [], _ => true
  | _ :: _, [] => false
  | c :: cs, h :: hs => c == h && matchesAt cs hs

/-- Character-list substring test, executable: the pattern occurs as a
contiguous run somewhere in the haystack. -/
def containsSub : List Char → List Char → Bool
  | [], pat => pat.isEmpty
  | c :: t, pat => matchesAt pat (c :: t) || containsSub t pat

/-- The characters of a string, lowercased. -/
def lowerData (s : String) : List Char := s.data.map Char.toLower

/-- Case-insensitive substring test, the semantics of a contains filter
with mode insensitive. -/
def ciContains (haystack pat : String) : Bool :=
  containsSub (lowerData haystack) (lowerData pat)

/-- Evaluation of one search disjunct on a row: the named column must
contain the search string case-insensitively; a missing column matches
nothing. -/
def clauseEval (r : Row) (c : SearchClause) : Bool :=
  match r.attr c.field with
  | some v => ciContains v c.contains
  | none => false

/-- Evaluation of the OR component: absent imposes no constraint, present
requires some disjunct to hold. -/
def orEval (r : Row) : Option (List SearchClause) → Bool
  | none => true
  | some cs => cs.any (clauseEval r)

/-- Evaluation of an exact-match component on a named scalar column. -/
def eqEval (r : Row) (col : String) : Option String → Bool
  | none => true
  | some v => r.attr col == some v

/-- Evaluation of the nested sport.universityId component: the queried
model must have a sport relation and the related record a matching
universityId. -/
def sportRelEval (r : Row) : Option SportRelWhere → Bool
  | none => true
  | some sw =>
    match r.sportRel with
    | some sp => sp "universityId" == some sw.universityId
    | none => false

/-- Evaluation of a whole where clause on a row: the conjunction of its
component filters, each trivially true when absent. -/
def whereEval (w : WhereClause) (r : Row) : Bool :=
  orEval r w.OR
    && eqEval r "gender" w.gender
    && eqEval r "role" w.role
    && eqEval r "sportId" w.sportId
    && sportRelEval r w.sport
    && eqEval r "universityId" w.universityId

/-- Row ordering induced by the orderBy component: compare the named
values of the named column as strings, ascending or descending; rows stay in place
when orderBy is absent. -/
def sortRows (orderBy : Option (String × SortDir)) (rows : List Row) :
    List Row :=
  match orderBy with
  | none => rows
  | some (col, dir) =>
    rows.mergeSort fun a b =>
      let av := (a.attr col).getD ""
      let bv := (b.attr col).getD ""
      match dir with
      | SortDir.asc => decide (av ≤ bv)
      | SortDir.desc => decide (bv ≤ av)

/-- The page-fetch query a list endpoint runs: filter with the where
clause, order, then apply skip and take.  Negative skip or take truncate
to 0 through Int.toNat, matching a storage engine that rejects or
zeroes negative offsets only after the builder has produced them. -/
def runFindMany (q : QueryDescriptor) (rows : List Row) : List Row :=
  (((sortRows q.orderBy rows).filter (whereEval q.whereClause)).drop
      q.skip.toNat).take q.take.toNat

/-- The count query a list endpoint runs in parallel with the page fetch,
over the identical where clause only (no pagination). -/
def runCount (q : QueryDescriptor) (rows : List Row) : Nat :=
  (rows.filter (whereEval q.whereClause)).length

/-!
Entity records, following src/backend/prisma/schema.prisma.  Timestamps
are assigned by the storage layer and play no role in the claims, so they
are omitted from the embedded rows.
-/

/-- The GameStatus enum of schema.prisma lines 88-94. -/
inductive GameStatus where
  | notStarted
  | inProgress
  | finished
  | postponed
  | cancelled
deriving DecidableEq, Repr

/-- The Gender enum of schema.prisma lines 82-86. -/
inductive Gender where
  | male
  | female
  | other
deriving DecidableEq, Repr

/-- The Role enum of schema.prisma lines 75-80. -/
inductive Role where
  | admin
  | coach
  | student
  | staff
deriving DecidableEq, Repr

/-- A Fixture row (schema.prisma lines 32-44). -/
structure FixtureRecord where
  id : String
  sportId : String
  homeTeam : String
  awayTeam : String
  venue : String
  gender : Gender
deriving DecidableEq, Repr

/-- A Result row (schema.prisma lines 46-60); fixtureId carries a unique
constraint in the schema. -/
structure ResultRecord where
  id : String
  fixtureId : String
  homeScore : Int
  awayScore : Int
  homeScorers : List String
  awayScorers : List String
  status : GameStatus
  currentPeriod : Option String
  timeElapsed : Option Int
  imageUrl : Option String
deriving DecidableEq, Repr

/-- A User row (schema.prisma lines 62-73); password stores the bcrypt
hash. -/
structure UserRecord where
  id : String
  name : String
  email : String
  password : String
  role : Role
  gender : Gender
  universityId : Option String
deriving DecidableEq, Repr

/-- The storage state the result routes operate on: the fixture table and
the result table. -/
structure Db where
  fixtures : List FixtureRecord
  results : List ResultRecord
deriving DecidableEq, Repr

/-- Errors the storage client surfaces to a route handler; every one of
them is caught by the catch block of the handler. -/
inductive PrismaError where
  | uniqueViolation
  | fkViolation
  | notFound
deriving DecidableEq, Repr

/-- Result create, as run by the results POST route against the schema:
the referenced fixture must exist (foreign key on fixtureId), the id and
the fixtureId must be fresh (id is the primary key, fixtureId is declared
unique in schema.prisma line 49); on success the new row is appended and
returned together with its included fixture. -/
def resultCreate (db : Db) (r : ResultRecord) :
    Except PrismaError (Db × ResultRecord × FixtureRecord) :=
  match db.fixtures.find? (fun fx => fx.id == r.fixtureId) with
  | none => Except.error PrismaError.fkViolation
  | some fx =>
    if db.results.any (fun x => x.fixtureId == r.fixtureId) then
      Except.error PrismaError.uniqueViolation
    else if db.results.any (fun x => x.id == r.id) then
      Except.error PrismaError.uniqueViolation
    else
      Except.ok ({ db with results := db.results ++ [r] }, r, fx)

/-- The update payload of the results PUT route (part_002 lines 587-606):
homeScore, awayScore and status are always written; homeScorers and
awayScorers fall back to undefined (leave unchanged) when absent;
currentPeriod is written when given; timeElapsed is written, with an
absent value stored as null; imageUrl is written only when an image was
uploaded. -/
structure ResultUpdateData where
  homeScore : Int
  awayScore : Int
  homeScorers : Option (List String) := none
  awayScorers : Option (List String) := none
  status : GameStatus
  currentPeriod : Option String := none
  timeElapsed : Option Int := none
  imageUrl : Option String := none
deriving DecidableEq, Repr

/-- Application of a result update to a stored row.  The PUT body never
carries id or fixtureId, so neither changes. -/
def applyResultUpdate (r : ResultRecord) (d : ResultUpdateData) :
    ResultRecord :=
  { r with
    homeScore := d.homeScore
    awayScore := d.awayScore
    homeScorers := d.homeScorers.getD r.homeScorers
    awayScorers := d.awayScorers.getD r.awayScorers
    status := d.status
    currentPeriod := (d.currentPeriod.map some).getD r.currentPeriod
    timeElapsed := d.timeElapsed
    imageUrl := (d.imageUrl.map some).getD r.imageUrl }

/-- Result update by id, as run by the results PUT route: a missing id
makes the storage client throw (record to update not found); on success
the row is replaced and returned with its included fixture. -/
def resultUpdateOp (db : Db) (id : String) (d : ResultUpdateData) :
    Except PrismaError (Db × ResultRecord × FixtureRecord) :=
  match db.results.find? (fun x => x.id == id) with
  | none => Except.error PrismaError.notFound
  | some r0 =>
    match db.fixtures.find?
        (fun fx => fx.id == (applyResultUpdate r0 d).fixtureId) with
    | none => Except.error PrismaError.fkViolation
    | some fx =>
      Except.ok
        ({ db with
            results := db.results.map fun x =>
              if x.id == id then applyResultUpdate r0 d else x },
          applyResultUpdate r0 d, fx)

/-- Result delete by id, as run by the results DELETE route: a missing id
makes the storage client throw (record to delete does not exist). -/
def resultDeleteOp (db : Db) (id : String) : Except PrismaError Db :=
  if db.results.any (fun x => x.id == id) then
    Except.ok { db with results := db.results.filter fun x => ¬ (x.id == id) }
  else
    Except.error PrismaError.notFound

/-!
Route handlers.  Each handler is embedded as a pure function from the
storage state (and request data) to the new storage state, the HTTP
response, and the ordered list of broadcast events it emits through
io.emit.  The try block of every source handler wraps the storage call,
so a thrown storage error skips everything after the call and lands in
the catch block, which produces a 500 response with a fixed message; the
emit call in the results handlers sits after the awaited write and before
the response (part_002 lines 491, 610, 640).
-/

/-- A broadcast event as emitted on the shared channel: resultUpdate
carries the full entity with its included fixture (part_002 lines
476-491), resultDelete carries only the deleted id (line 640). -/
inductive BroadcastEvent where
  | resultUpdate (result : ResultRecord) (fixture : FixtureRecord)
  | resultDelete (id : String)
deriving DecidableEq, Repr

/-- An HTTP response: status plus the error message of the error
envelope, when one is sent. -/
structure HttpResponse where
  status : Nat
  errorMsg : Option String := none
deriving DecidableEq, Repr

/-- Outcome of running one results-route handler: the storage state
afterwards, the response, and the events emitted, in order. -/
structure HandlerRun where
  db : Db
  response : HttpResponse
  events : List BroadcastEvent
deriving DecidableEq, Repr

/-- The results POST handler (part_002 lines 466-497): on a successful
create it emits one resultUpdate with the created entity and its fixture,
then responds 201; a thrown storage error reaches the catch block, which
responds 500 and emits nothing. -/
def resultsPostHandler (db : Db) (input : ResultRecord) : HandlerRun :=
  match resultCreate db input with
  | Except.ok (db2, r, fx) =>
    { db := db2
      response := { status := 201 }
      events := [BroadcastEvent.resultUpdate r fx] }
  | Except.error _ =>
    { db := db
      response :=
        { status := 500
          errorMsg := some "An error occurred while creating the result" }
      events := [] }

/-- The results PUT handler (part_002 lines 584-616): on a successful
update it emits one resultUpdate with the updated entity and its fixture,
then responds 200; any thrown storage error, including record-to-update
not found, responds 500 and emits nothing. -/
def resultsPutHandler (db : Db) (id : String) (d : ResultUpdateData) :
    HandlerRun :=
  match resultUpdateOp db id d with
  | Except.ok (db2, r, fx) =>
    { db := db2
      response := { status := 200 }
      events := [BroadcastEvent.resultUpdate r fx] }
  | Except.error _ =>
    { db := db
      response :=
        { status := 500
          errorMsg := some "An error occurred while updating the result" }
      events := [] }

/-- The results DELETE handler (part_002 lines 636-645): on a successful
delete it emits one resultDelete carrying the id, then responds 204; a
missing id makes the delete call throw, so the catch block responds 500
and emits nothing. -/
def resultsDeleteHandler (db : Db) (id : String) : HandlerRun :=
  match resultDeleteOp db id with
  | Except.ok db2 =>
    { db := db2
      response := { status := 204 }
      events := [BroadcastEvent.resultDelete id] }
  | Except.error _ =>
    { db := db
      response :=
        { status := 500
          errorMsg := some "An error occurred while deleting the result" }
      events := [] }

/-- The results GET-by-id handler (part_002 lines 521-535): findUnique
returns null for a missing id, which the handler maps to 404; a found row
is returned with status 200. -/
def resultsGetByIdHandler (db : Db) (id : String) : HttpResponse :=
  match db.results.find? (fun x => x.id == id) with
  | some _ => { status := 200 }
  | none => { status := 404, errorMsg := some "Result not found" }

/-- Fan-out of one emitted event over the currently connected
subscribers: every subscriber receives the event, none is queued for
later, and the emit returns no value the handler could observe. -/
def deliverEvent (subscribers : List String) (e : BroadcastEvent) :
    List (String × BroadcastEvent) :=
  subscribers.map fun s => (s, e)

/-!
The users router (part_002 lines 45-310).  Every handler passes an
explicit select object; the four select objects are textually repeated in
the source, one per handler, and are embedded as four lists of the
selected top-level keys in source order.  The nested university key is
itself sub-selected down to name only.
-/

/-- String form of a Role value as stored and filtered. -/
def roleStr : Role → String
  | Role.admin => "ADMIN"
  | Role.coach => "COACH"
  | Role.student => "STUDENT"
  | Role.staff => "STAFF"

/-- String form of a Gender value as stored and filtered. -/
def genderStr : Gender → String
  | Gender.male => "MALE"
  | Gender.female => "FEMALE"
  | Gender.other => "OTHER"

/-- The scalar columns of a stored user row, password hash included. -/
def userAttrs (u : UserRecord) : String → Option String := fun f =>
  if f = "id" then some u.id
  else if f = "name" then some u.name
  else if f = "email" then some u.email
  else if f = "password" then some u.password
  else if f = "role" then some (roleStr u.role)
  else if f = "gender" then some (genderStr u.gender)
  else if f = "universityId" then u.universityId
  else none

/-- A user row as the where clause sees it; the User model has no
relation named sport. -/
def userRow (u : UserRecord) : Row :=
  { attr := userAttrs u, sportRel := none }

/-- Select keys of the users list handler (part_002 lines 54-68). -/
def usersListSelect : List String :=
  ["id", "name", "email", "role", "gender", "universityId", "university",
    "createdAt", "updatedAt"]

/-- Select keys of the users POST handler (part_002 lines 133-147). -/
def usersCreateSelect : List String :=
  ["id", "name", "email", "role", "gender", "universityId", "university",
    "createdAt", "updatedAt"]

/-- Select keys of the users GET-by-id handler (part_002 lines 183-197). -/
def usersGetSelect : List String :=
  ["id", "name", "email", "role", "gender", "universityId", "university",
    "createdAt", "updatedAt"]

/-- Select keys of the users PUT handler (part_002 lines 262-276). -/
def usersUpdateSelect : List String :=
  ["id", "name", "email", "role", "gender", "universityId", "university",
    "createdAt", "updatedAt"]

/-- Projection of a stored row through a select object: a key outside the
select set is absent from the response body. -/
def selectProject (sel : List String) (row : String → Option String) :
    String → Option String := fun f =>
  if sel.contains f then row f else none

/-- The search fields the users list route passes to the builder
(part_002 line 48). -/
def usersSearchFields : List String := ["name", "email", "role", "gender"]

/-- The envelope of a list response (data page, total count, echoed page
and limit). -/
structure ListResponse where
  data : List (String → Option String)
  total : Nat
  page : Int
  limit : Int

/-- The users list handler (part_002 lines 45-82): builds the descriptor
over the users search fields, runs the page fetch and the count over the
same where clause, projects each returned row through the select object,
and echoes page and limit with their truthiness defaults.  The source
passes both an include and a select to the page fetch, which the storage
client rejects at runtime; the embedding keeps the select object, the
operative field restriction of the response path. -/
def usersListHandler (db : List UserRecord) (options : QueryOptions) :
    ListResponse :=
  let q := buildQueryOptions options usersSearchFields
  let rows := db.map userRow
  { data := (runFindMany q rows).map fun r => selectProject usersListSelect r.attr
    total := runCount q rows
    page := effPage options.page
    limit := effLimit options.limit }

/-- A single-user response: status, projected body when one is sent, and
the error envelope otherwise. -/
structure UserResponse where
  status : Nat
  body : Option (String → Option String)
  errorMsg : Option String

/-- The users POST handler (part_002 lines 119-154): the create stores
the bcrypt hash of the submitted password and returns the row projected
through the select object with status 201; a thrown storage error (such
as the unique email constraint) responds 500. -/
def usersPostHandler (db : List UserRecord) (u : UserRecord) :
    UserResponse × List UserRecord :=
  if db.any (fun x => x.email == u.email) then
    ({ status := 500, body := none
       errorMsg := some "An error occurred while creating the user" }, db)
  else if db.any (fun x => x.id == u.id) then
    ({ status := 500, body := none
       errorMsg := some "An error occurred while creating the user" }, db)
  else
    ({ status := 201, body := some (selectProject usersCreateSelect (userAttrs u))
       errorMsg := none }, db ++ [u])

/-- The users GET-by-id handler (part_002 lines 178-206): findUnique
returns null for a missing id, mapped to 404; a found row is projected
through the select object. -/
def usersGetByIdHandler (db : List UserRecord) (id : String) :
    UserResponse :=
  match db.find? (fun x => x.id == id) with
  | some u =>
    { status := 200, body := some (selectProject usersGetSelect (userAttrs u))
      errorMsg := none }
  | none => { status := 404, body := none, errorMsg := some "User not found" }

/-- The update payload of the users PUT route (part_002 line 252): name,
email, role, gender and universityId; the password is never part of the
update data. -/
structure UserUpdateData where
  name : String
  email : String
  role : Role
  gender : Gender
  universityId : Option String
deriving DecidableEq, Repr

/-- The users PUT handler (part_002 lines 249-282): update throws for a
missing id, which the catch block maps to 500; on success the updated row
is projected through the select object. -/
def usersPutHandler (db : List UserRecord) (id : String)
    (d : UserUpdateData) : UserResponse × List UserRecord :=
  match db.find? (fun x => x.id == id) with
  | some u0 =>
    let u : UserRecord :=
      { u0 with
        name := d.name, email := d.email, role := d.role
        gender := d.gender, universityId := d.universityId }
    ({ status := 200, body := some (selectProject usersUpdateSelect (userAttrs u))
       errorMsg := none },
      db.map fun x => if x.id == id then u else x)
  | none =>
    ({ status := 500, body := none
       errorMsg := some "An error occurred while updating the user" }, db)

/-- The users DELETE handler (part_002 lines 302-310): delete throws for
a missing id, which the catch block maps to 500; on success the handler
responds 204 with no body. -/
def usersDeleteHandler (db : List UserRecord) (id : String) :
    UserResponse × List UserRecord :=
  if db.any (fun x => x.id == id) then
    ({ status := 204, body := none, errorMsg := none },
      db.filter fun x => ¬ (x.id == id))
  else
    ({ status := 500, body := none
       errorMsg := some "An error occurred while deleting the user" }, db)

/-!
Reachable storage states: starting from an empty database, fixtures are
appended by the fixture POST route, and the result table changes only
through the three result-route handlers embedded above.
-/

/-- Storage states reachable through the write endpoints that touch the
fixture and result tables. -/
inductive Reachable : Db → Prop where
  | init : Reachable { fixtures := [], results := [] }
  | fixtureCreated (db : Db) (fx : FixtureRecord) : Reachable db →
      Reachable { db with fixtures := db.fixtures ++ [fx] }
  | resultPosted (db : Db) (input : ResultRecord) : Reachable db →
      Reachable (resultsPostHandler db input).db
  | resultPut (db : Db) (id : String) (d : ResultUpdateData) :
      Reachable db → Reachable (resultsPutHandler db id d).db
  | resultDeleted (db : Db) (id : String) : Reachable db →
      Reachable (resultsDeleteHandler db id).db

/-- Well-formedness of the result table under the schema constraints:
ids are primary keys and fixtureId is declared unique, so both are
pairwise distinct. -/
def ResultsWF (db : Db) : Prop :=
  db.results.Pairwise fun a b => a.fixtureId ≠ b.fixtureId ∧ a.id ≠ b.id

/-- The at-most-one-result-per-fixture invariant of the schema. -/
def AtMostOneResultPerFixture (db : Db) : Prop :=
  db.results.Pairwise fun a b => a.fixtureId ≠ b.fixtureId

/-- A concrete fixture used to evaluate the handlers. -/
def sampleFixture : FixtureRecord :=
  { id := "f1", sportId := "s1", homeTeam := "A", awayTeam := "B",
    venue := "V", gender := Gender.male }

/-- A concrete result for sampleFixture used to evaluate the handlers. -/
def sampleResult : ResultRecord :=
  { id := "r1", fixtureId := "f1", homeScore := 1, awayScore := 2,
    homeScorers := [], awayScorers := [], status := GameStatus.finished,
    currentPeriod := none, timeElapsed := none, imageUrl := none }

/-- A concrete stored user used to evaluate the handlers. -/
def sampleUser : UserRecord :=
  { id := "u1", name := "Ada", email := "ada@example.com",
    password := "bcrypt-hash", role := Role.admin, gender := Gender.female,
    universityId := none }

/-- A database holding sampleFixture and no results. -/
def sampleDbNoResult : Db := { fixtures := [sampleFixture], results := [] }

/-- A database holding sampleFixture and its sampleResult. -/
def sampleDbWithResult : Db :=
  { fixtures := [sampleFixture], results := [sampleResult] }

/-!
Claims about the query builder.
-/

theorem any_map_general {α β : Type} (l : List α) (g : α → β)
    (p : β → Bool) : (l.map g).any p = l.any fun a => p (g a) := by
  induction l with
  | nil => rfl
  | cons a t ih => simp [ih]

theorem matchesAt_iff (p h : List Char) : matchesAt p h = true ↔ p <+: h := by
  induction p generalizing h with
  | nil => simp [matchesAt]
  | cons c cs ih =>
    cases h with
    | nil => simp [matchesAt]
    | cons a t =>
      rw [List.cons_prefix_cons]
      simp only [matchesAt, Bool.and_eq_true, beq_iff_eq, ih]

theorem containsSub_iff (h p : List Char) :
    containsSub h p = true ↔ p <:+: h := by
  induction h with
  | nil => simp [containsSub, List.isEmpty_iff]
  | cons a t ih =>
    simp [containsSub, List.infix_cons_iff, matchesAt_iff, ih]

/-- The case-insensitive substring relation realized by ciContains. -/
theorem ciContains_iff (haystack pat : String) :
    ciContains haystack pat = true ↔
      lowerData pat <:+: lowerData haystack :=
  containsSub_iff _ _

/-- C1 counterexample: the builder does not clamp a page below 1 to the
default.  For page -1 and limit 10 it returns skip -20, a negative skip,
where clamping page to the default 1 would return skip 0. -/
theorem skip_negative_page_counterexample :
    (buildQueryOptions { page := some (-1), limit := some 10 } []).skip = -20 ∧
    (buildQueryOptions { page := some (-1), limit := some 10 } []).skip < 0 := by
  constructor <;> decide

/-- C1 amended: skip is (page - 1) * limit over the effective page and
limit, where a page or limit that is absent or 0 falls back to the
defaults 1 and 10 and every other value, negative ones included, is used
unclamped; when both supplied values are at least 1 the skip is
nonnegative. -/
theorem skip_formula_with_truthiness_defaults (p : QueryOptions)
    (f : List String) :
    (buildQueryOptions p f).skip = (effPage p.page - 1) * effLimit p.limit ∧
    effPage none = 1 ∧ effPage (some 0) = 1 ∧
    effLimit none = 10 ∧ effLimit (some 0) = 10 ∧
    (∀ pg lm : Int, p.page = some pg → p.limit = some lm →
      1 ≤ pg → 1 ≤ lm → 0 ≤ (buildQueryOptions p f).skip) := by
  refine ⟨rfl, rfl, rfl, rfl, rfl, ?_⟩
  intro pg lm hpg hlm h1 h2
  have hskip : (buildQueryOptions p f).skip = (effPage p.page - 1) * effLimit p.limit := rfl
  rw [hskip, hpg, hlm]
  have hpg0 : pg ≠ 0 := by omega
  have hlm0 : lm ≠ 0 := by omega
  simp only [effPage, effLimit, if_neg hpg0, if_neg hlm0]
  have : 0 ≤ pg - 1 := by omega
  exact mul_nonneg this (by omega)

/-- C1 witness: applying the amended skip formula at page 3 and limit 5
yields a nonnegative skip. -/
theorem skip_formula_with_truthiness_defaults_witness :
    0 ≤ (buildQueryOptions { page := some 3, limit := some 5 } []).skip :=
  (skip_formula_with_truthiness_defaults { page := some 3, limit := some 5 }
    []).2.2.2.2.2 3 5 rfl rfl (by decide) (by decide)

/-- C2 counterexample: in the Sport-listing context (search fields
["name"], as the sports router passes them) a universityId parameter does
not constrain a direct universityId field: the built where clause leaves
the direct universityId key unset and instead sets the nested
sport.universityId relation object. -/
theorem sportList_universityId_not_direct_counterexample :
    (buildQueryOptions { universityId := some "U1" }
        ["name"]).whereClause.universityId = none ∧
    (buildQueryOptions { universityId := some "U1" }
        ["name"]).whereClause.sport = some { universityId := "U1" } := by
  constructor <;> decide

/-- C2 amended: the builder is context-independent: for every searchable
field list, Sport-listing and Fixture-listing included, a present
universityId is translated to the nested relation predicate
sport.universityId with no direct universityId constraint; consequently a
row of a model without a sport relation never satisfies the built where
clause, while in the Fixture context the filter reaches through the
resolved sport relation. -/
theorem universityId_filter_always_nested (p : QueryOptions)
    (f : List String) (u : String) (hu : u ≠ "")
    (hp : p.universityId = some u) :
    (buildQueryOptions p f).whereClause.sport = some { universityId := u } ∧
    (buildQueryOptions p f).whereClause.universityId = none ∧
    (∀ r : Row, r.sportRel = none →
      whereEval (buildQueryOptions p f).whereClause r = false) ∧
    (∀ r : Row, ∀ sp, r.sportRel = some sp →
      (whereEval (buildQueryOptions p f).whereClause r = true →
        sp "universityId" = some u)) := by
  have hsport : (buildQueryOptions p f).whereClause.sport =
      some { universityId := u } := by
    simp [buildQueryOptions, strFilter, hp, hu]
  refine ⟨hsport, rfl, ?_, ?_⟩
  · intro r hr
    simp [whereEval, hsport, sportRelEval, hr]
  · intro r sp hr hw
    simp [whereEval, hsport, sportRelEval, hr, Bool.and_eq_true] at hw
    simpa using hw.1.2

/-- C2 witness: at the Sport-listing search fields and universityId U1,
the built clause is nested and a sport row (which has no sport relation
of its own) does not match. -/
theorem universityId_filter_always_nested_witness :
    (buildQueryOptions { universityId := some "U1" }
        ["name"]).whereClause.sport = some { universityId := "U1" } ∧
    whereEval (buildQueryOptions { universityId := some "U1" }
        ["name"]).whereClause { attr := fun _ => none, sportRel := none } = false :=
  ⟨(universityId_filter_always_nested { universityId := some "U1" } ["name"]
      "U1" (by decide) rfl).1,
    (universityId_filter_always_nested { universityId := some "U1" } ["name"]
      "U1" (by decide) rfl).2.2.1 { attr := fun _ => none, sportRel := none } rfl⟩

/-- C8: the builder is deterministic: two invocations on equal parameters
and equal searchable field lists return equal descriptors. -/
theorem buildQueryOptions_deterministic (p1 p2 : QueryOptions)
    (f1 f2 : List String) (hp : p1 = p2) (hf : f1 = f2) :
    buildQueryOptions p1 f1 = buildQueryOptions p2 f2 := by
  rw [hp, hf]

/-- C8 witness: determinism applied at a concrete parameter set. -/
theorem buildQueryOptions_deterministic_witness :
    buildQueryOptions { page := some 2, search := some "alpha" } ["name"] =
      buildQueryOptions { page := some 2, search := some "alpha" } ["name"] :=
  buildQueryOptions_deterministic _ _ _ _ rfl rfl

/-- C5: the built where clause evaluates as the conjunction of its
component filters; each filter key is left unset when the corresponding
parameter is absent, the empty parameter set builds the empty where
clause, and the empty where clause is true on every row. -/
theorem where_conjunction_of_present_filters (p : QueryOptions)
    (f : List String) (r : Row) :
    (whereEval (buildQueryOptions p f).whereClause r =
      (orEval r (buildQueryOptions p f).whereClause.OR
        && eqEval r "gender" (buildQueryOptions p f).whereClause.gender
        && eqEval r "role" (buildQueryOptions p f).whereClause.role
        && eqEval r "sportId" (buildQueryOptions p f).whereClause.sportId
        && sportRelEval r (buildQueryOptions p f).whereClause.sport
        && eqEval r "universityId"
            (buildQueryOptions p f).whereClause.universityId)) ∧
    ((buildQueryOptions { p with search := none } f).whereClause.OR = none) ∧
    ((buildQueryOptions { p with gender := none } f).whereClause.gender = none) ∧
    ((buildQueryOptions { p with role := none } f).whereClause.role = none) ∧
    ((buildQueryOptions { p with sportId := none } f).whereClause.sportId = none) ∧
    ((buildQueryOptions { p with universityId := none } f).whereClause.sport = none) ∧
    ((buildQueryOptions {} f).whereClause = {}) ∧
    (whereEval (buildQueryOptions {} f).whereClause r = true) := by
  refine ⟨rfl, rfl, rfl, rfl, rfl, rfl, rfl, ?_⟩
  simp [whereEval, buildQueryOptions, searchOr, strFilter, orEval, eqEval,
    sportRelEval]

/-- C6: a present nonempty search builds one case-insensitive contains
disjunct per searchable field, in order; the OR component evaluates as
the disjunction of those clauses over the row, each clause tests the
case-insensitive substring relation on the named column, and an empty
search string builds no OR component at all. -/
theorem search_filter_disjunction (p : QueryOptions) (f : List String)
    (s : String) (hp : p.search = some s) (hs : s ≠ "") :
    ((buildQueryOptions p f).whereClause.OR =
      some (f.map fun fl => { field := fl, contains := s })) ∧
    (∀ r : Row, orEval r (buildQueryOptions p f).whereClause.OR =
      f.any fun fl => clauseEval r { field := fl, contains := s }) ∧
    (∀ r : Row, ∀ fl v, r.attr fl = some v →
      (clauseEval r { field := fl, contains := s } = true ↔
        lowerData s <:+: lowerData v)) ∧
    (∀ q : QueryOptions, q.search = some "" →
      (buildQueryOptions q f).whereClause.OR = none) := by
  have hOR : (buildQueryOptions p f).whereClause.OR =
      some (f.map fun fl => { field := fl, contains := s }) := by
    simp [buildQueryOptions, searchOr, strFilter, hp, hs]
  refine ⟨hOR, ?_, ?_, ?_⟩
  · intro r
    rw [hOR, orEval, any_map_general]
  · intro r fl v hv
    simp only [clauseEval, hv]
    exact ciContains_iff v s
  · intro q hq
    simp [buildQueryOptions, searchOr, strFilter, hq]

/-- C6 witness: search alpha over the searchable fields name and
location builds the two-clause disjunction of the listing example, a row
named Alpha U matches, a row named BetaAlpha matches through the
substring test, and a row named beta does not. -/
theorem search_filter_disjunction_witness :
    ((buildQueryOptions { search := some "alpha" }
        ["name", "location"]).whereClause.OR =
      some [{ field := "name", contains := "alpha" },
        { field := "location", contains := "alpha" }]) ∧
    ciContains "Alpha U" "alpha" = true ∧
    ciContains "BetaAlpha" "alpha" = true ∧
    ciContains "beta" "alpha" = false :=
  ⟨(search_filter_disjunction { search := some "alpha" } ["name", "location"]
      "alpha" rfl (by decide)).1,
    by decide, by decide, by decide⟩

/-- C7: for a supplied page and limit both at least 1, the descriptor has
skip (page - 1) * limit and take limit, and the data page returned by the
users list endpoint holds at most limit rows. -/
theorem pagination_skip_take_data_bound (p : QueryOptions) (f : List String)
    (pg lm : Int) (hpg : p.page = some pg) (hlm : p.limit = some lm)
    (h1 : 1 ≤ pg) (h2 : 1 ≤ lm) :
    (buildQueryOptions p f).skip = (pg - 1) * lm ∧
    (buildQueryOptions p f).take = lm ∧
    (∀ db : List UserRecord,
      ((usersListHandler db p).data.length : Int) ≤ lm) := by
  have hpg0 : pg ≠ 0 := by omega
  have hlm0 : lm ≠ 0 := by omega
  have heffp : effPage p.page = pg := by simp [effPage, hpg, hpg0]
  have heffl : effLimit p.limit = lm := by simp [effLimit, hlm, hlm0]
  refine ⟨?_, ?_, ?_⟩
  · show (effPage p.page - 1) * effLimit p.limit = (pg - 1) * lm
    rw [heffp, heffl]
  · show effLimit p.limit = lm
    exact heffl
  · intro db
    have hlen : (usersListHandler db p).data.length ≤
        (buildQueryOptions p usersSearchFields).take.toNat := by
      simp only [usersListHandler, List.length_map, runFindMany]
      exact List.length_take_le _ _
    have htake : (buildQueryOptions p usersSearchFields).take = lm := heffl
    have := Int.ofNat_le.mpr hlen
    calc ((usersListHandler db p).data.length : Int)
        ≤ ((buildQueryOptions p usersSearchFields).take.toNat : Int) := this
      _ = lm := by rw [htake]; exact Int.toNat_of_nonneg (by omega)

/-- C7 witness: at page 2 and limit 3 the descriptor has skip 3 and take
3, and the empty user table yields at most 3 rows. -/
theorem pagination_skip_take_data_bound_witness :
    (buildQueryOptions { page := some 2, limit := some 3 } []).skip = 3 ∧
    (buildQueryOptions { page := some 2, limit := some 3 } []).take = 3 ∧
    ((usersListHandler [] { page := some 2, limit := some 3 }).data.length : Int) ≤ 3 := by
  have h := pagination_skip_take_data_bound
    { page := some 2, limit := some 3 } [] 2 3 rfl rfl (by decide) (by decide)
  exact ⟨h.1.trans (by decide), h.2.1, h.2.2 []⟩

/-!
Claims about error handling and the broadcaster.
-/

/-- C3: evaluating the handlers at a missing id.  The GET-by-id handlers
return 404 as documented, but the DELETE and PUT handlers reach the
catch-all and return 500 with the generic error envelope, although the
routes document a 404 not-found response for delete and update; a missing
id never yields 204. -/
theorem missing_id_delete_update_return_500_not_404 :
    (usersDeleteHandler [] "u1").1.status = 500 ∧
    (usersDeleteHandler [] "u1").1.errorMsg =
      some "An error occurred while deleting the user" ∧
    (usersDeleteHandler [] "u1").1.status ≠ 204 ∧
    (resultsDeleteHandler { fixtures := [], results := [] } "r1").response.status = 500 ∧
    (resultsDeleteHandler { fixtures := [], results := [] } "r1").response.status ≠ 204 ∧
    (usersPutHandler [] "u1"
        { name := "n", email := "e", role := Role.student,
          gender := Gender.other, universityId := none }).1.status = 500 ∧
    (usersGetByIdHandler [] "u1").status = 404 ∧
    (resultsGetByIdHandler { fixtures := [], results := [] } "r1").status = 404 := by
  refine ⟨rfl, rfl, by decide, rfl, by decide, rfl, rfl, rfl⟩

/-- C4: the broadcast contract of the result routes.  A successful create
or update emits exactly one resultUpdate event whose payload is the
written entity together with its included fixture; a successful delete
emits exactly one resultDelete event carrying the id only; a storage
error emits nothing and leaves the state unchanged; and the fan-out
delivers each emitted event to exactly the currently connected
subscribers without feeding anything back into the handler. -/
theorem result_broadcast_contract (db : Db) :
    (∀ input db2 r fx, resultCreate db input = Except.ok (db2, r, fx) →
      (resultsPostHandler db input).events = [BroadcastEvent.resultUpdate r fx] ∧
      (resultsPostHandler db input).response.status = 201 ∧
      (resultsPostHandler db input).db = db2) ∧
    (∀ input e, resultCreate db input = Except.error e →
      (resultsPostHandler db input).events = [] ∧
      (resultsPostHandler db input).db = db) ∧
    (∀ id d db2 r fx, resultUpdateOp db id d = Except.ok (db2, r, fx) →
      (resultsPutHandler db id d).events = [BroadcastEvent.resultUpdate r fx] ∧
      (resultsPutHandler db id d).response.status = 200 ∧
      (resultsPutHandler db id d).db = db2) ∧
    (∀ id d e, resultUpdateOp db id d = Except.error e →
      (resultsPutHandler db id d).events = [] ∧
      (resultsPutHandler db id d).db = db) ∧
    (∀ id db2, resultDeleteOp db id = Except.ok db2 →
      (resultsDeleteHandler db id).events = [BroadcastEvent.resultDelete id] ∧
      (resultsDeleteHandler db id).response.status = 204 ∧
      (resultsDeleteHandler db id).db = db2) ∧
    (∀ id e, resultDeleteOp db id = Except.error e →
      (resultsDeleteHandler db id).events = [] ∧
      (resultsDeleteHandler db id).db = db) ∧
    (∀ subs e, deliverEvent subs e = subs.map fun s => (s, e)) := by
  refine ⟨?_, ?_, ?_, ?_, ?_, ?_, fun _ _ => rfl⟩
  · intro input db2 r fx h
    simp [resultsPostHandler, h]
  · intro input e h
    simp [resultsPostHandler, h]
  · intro id d db2 r fx h
    simp [resultsPutHandler, h]
  · intro id d e h
    simp [resultsPutHandler, h]
  · intro id db2 h
    simp [resultsDeleteHandler, h]
  · intro id e h
    simp [resultsDeleteHandler, h]

/-- C4 witness: a concrete successful create over one fixture emits the
single resultUpdate carrying the created result and its fixture. -/
theorem result_broadcast_contract_witness :
    (resultsPostHandler sampleDbNoResult sampleResult).events =
      [BroadcastEvent.resultUpdate sampleResult sampleFixture] :=
  ((result_broadcast_contract sampleDbNoResult).1 sampleResult
    sampleDbWithResult sampleResult sampleFixture (by
      simp [resultCreate, sampleDbNoResult, sampleDbWithResult, sampleFixture,
        sampleResult])).1

/-- C10: no user endpoint ever returns the password field: each of the
four handlers selects an explicit field set that excludes password, and
every body any of them can send maps the password key to nothing. -/
theorem user_endpoints_never_return_password :
    (usersListSelect.contains "password" = false) ∧
    (usersCreateSelect.contains "password" = false) ∧
    (usersGetSelect.contains "password" = false) ∧
    (usersUpdateSelect.contains "password" = false) ∧
    (∀ db opts body, body ∈ (usersListHandler db opts).data →
      body "password" = none) ∧
    (∀ db u body, (usersPostHandler db u).1.body = some body →
      body "password" = none) ∧
    (∀ db id body, (usersGetByIdHandler db id).body = some body →
      body "password" = none) ∧
    (∀ db id d body, (usersPutHandler db id d).1.body = some body →
      body "password" = none) := by
  have hproj : ∀ sel : List String, sel.contains "password" = false →
      ∀ row : String → Option String, selectProject sel row "password" = none := by
    intro sel hsel row
    simp only [selectProject]
    rw [hsel]
    simp
  refine ⟨by decide, by decide, by decide, by decide, ?_, ?_, ?_, ?_⟩
  · intro db opts body hmem
    simp only [usersListHandler, List.mem_map] at hmem
    obtain ⟨r, _, hr⟩ := hmem
    rw [← hr]
    exact hproj _ (by decide) _
  · intro db u body hbody
    unfold usersPostHandler at hbody
    split at hbody
    · simp at hbody
    · split at hbody
      · simp at hbody
      · simp only [Option.some.injEq] at hbody
        rw [← hbody]
        exact hproj _ (by decide) _
  · intro db id body hbody
    unfold usersGetByIdHandler at hbody
    split at hbody
    · simp only [Option.some.injEq] at hbody
      rw [← hbody]
      exact hproj _ (by decide) _
    · simp at hbody
  · intro db id d body hbody
    unfold usersPutHandler at hbody
    split at hbody
    · simp only [Option.some.injEq] at hbody
      rw [← hbody]
      exact hproj _ (by decide) _
    · simp at hbody

/-- C10 witness: fetching the stored sample user by id produces a body
whose password key is absent. -/
theorem user_endpoints_never_return_password_witness :
    selectProject usersGetSelect (userAttrs sampleUser) "password" = none :=
  user_endpoints_never_return_password.2.2.2.2.2.2.1 [sampleUser] "u1"
    (selectProject usersGetSelect (userAttrs sampleUser)) rfl

/-!
The result-uniqueness invariant.
-/

theorem resultsWF_symm :
    Symmetric fun a b : ResultRecord =>
      a.fixtureId ≠ b.fixtureId ∧ a.id ≠ b.id := by
  intro a b hab
  exact ⟨hab.1.symm, hab.2.symm⟩

theorem resultsWF_post (db : Db) (input : ResultRecord) (h : ResultsWF db) :
    ResultsWF (resultsPostHandler db input).db := by
  unfold resultsPostHandler
  cases hc : resultCreate db input with
  | error e => exact h
  | ok t =>
    obtain ⟨db2, r, fx⟩ := t
    show ResultsWF db2
    unfold resultCreate at hc
    split at hc
    · exact absurd hc (by simp)
    · split at hc
      next h1 => exact absurd hc (by simp)
      next h1 =>
        split at hc
        next h2 => exact absurd hc (by simp)
        next h2 =>
          simp only [Except.ok.injEq, Prod.mk.injEq] at hc
          obtain ⟨hdb2, -, -⟩ := hc
          rw [← hdb2]
          show (db.results ++ [input]).Pairwise _
          rw [List.pairwise_append]
          refine ⟨h, List.pairwise_singleton _ _, ?_⟩
          intro a ha b hb
          have hb' : b = input := by simpa using hb
          subst hb'
          rw [Bool.not_eq_true, List.any_eq_false] at h1 h2
          have hfx := h1 a ha
          have hid := h2 a ha
          simp only [beq_iff_eq] at hfx hid
          exact ⟨hfx, hid⟩

theorem resultsWF_put (db : Db) (id : String) (d : ResultUpdateData)
    (h : ResultsWF db) : ResultsWF (resultsPutHandler db id d).db := by
  unfold resultsPutHandler
  cases hc : resultUpdateOp db id d with
  | error e => exact h
  | ok t =>
    obtain ⟨db2, r, fx⟩ := t
    show ResultsWF db2
    unfold resultUpdateOp at hc
    split at hc
    · exact absurd hc (by simp)
    next r0 hfind =>
      split at hc
      · exact absurd hc (by simp)
      next fx0 hffind =>
        simp only [Except.ok.injEq, Prod.mk.injEq] at hc
        obtain ⟨hdb2, -, -⟩ := hc
        rw [← hdb2]
        show (db.results.map _).Pairwise _
        rw [List.pairwise_map]
        have hr0mem : r0 ∈ db.results := List.mem_of_find?_eq_some hfind
        have hr0id : r0.id = id := by
          have := List.find?_some hfind
          simpa using this
        have hkey : ∀ x ∈ db.results,
            ((if (x.id == id) = true then applyResultUpdate r0 d else x).fixtureId
                = x.fixtureId) ∧
            ((if (x.id == id) = true then applyResultUpdate r0 d else x).id
                = x.id) := by
          intro x hx
          by_cases hxid : (x.id == id) = true
          · have hxeq : x = r0 := by
              by_contra hne
              have hR := h.forall resultsWF_symm hx hr0mem hne
              exact hR.2 (by simp only [beq_iff_eq] at hxid; rw [hxid, hr0id])
            rw [if_pos hxid, hxeq]
            exact ⟨rfl, rfl⟩
          · rw [if_neg hxid]
            exact ⟨rfl, rfl⟩
        refine h.imp_of_mem ?_
        intro a b ha hb hab
        have hka := hkey a ha
        have hkb := hkey b hb
        constructor
        · rw [hka.1, hkb.1]
          exact hab.1
        · rw [hka.2, hkb.2]
          exact hab.2

theorem resultsWF_delete (db : Db) (id : String) (h : ResultsWF db) :
    ResultsWF (resultsDeleteHandler db id).db := by
  unfold resultsDeleteHandler resultDeleteOp
  by_cases hc : db.results.any (fun x => x.id == id) = true
  · rw [if_pos hc]
    exact List.Pairwise.sublist (List.filter_sublist _) h
  · rw [if_neg hc]
    exact h

theorem reachable_resultsWF (db : Db) (h : Reachable db) : ResultsWF db := by
  induction h with
  | init => exact List.Pairwise.nil
  | fixtureCreated db fx hr ih => exact ih
  | resultPosted db input hr ih => exact resultsWF_post db input ih
  | resultPut db id d hr ih => exact resultsWF_put db id d ih
  | resultDeleted db id hr ih => exact resultsWF_delete db id ih

/-- C9: every reachable storage state has at most one result per fixture;
creating a result whose fixtureId is already taken fails and leaves the
state untouched while the route responds 500, and when the referenced
fixture exists the failure is specifically the uniqueness violation. -/
theorem result_per_fixture_unique :
    (∀ db, Reachable db → AtMostOneResultPerFixture db) ∧
    (∀ db r, (∃ x ∈ db.results, x.fixtureId = r.fixtureId) →
      (∃ e, resultCreate db r = Except.error e) ∧
      (resultsPostHandler db r).db = db ∧
      (resultsPostHandler db r).response.status = 500) ∧
    (∀ db r fx, fx ∈ db.fixtures → fx.id = r.fixtureId →
      (∃ x ∈ db.results, x.fixtureId = r.fixtureId) →
      resultCreate db r = Except.error PrismaError.uniqueViolation) := by
  have hany : ∀ (db : Db) (r : ResultRecord),
      (∃ x ∈ db.results, x.fixtureId = r.fixtureId) →
      (db.results.any fun x => x.fixtureId == r.fixtureId) = true := by
    intro db r hex
    rw [List.any_eq_true]
    obtain ⟨x, hx, he⟩ := hex
    exact ⟨x, hx, by rw [he]; exact beq_self_eq_true _⟩
  have herr : ∀ (db : Db) (r : ResultRecord),
      (∃ x ∈ db.results, x.fixtureId = r.fixtureId) →
      ∃ e, resultCreate db r = Except.error e := by
    intro db r hex
    unfold resultCreate
    cases hf : db.fixtures.find? (fun fx => fx.id == r.fixtureId) with
    | none => exact ⟨PrismaError.fkViolation, rfl⟩
    | some fx =>
      refine ⟨PrismaError.uniqueViolation, ?_⟩
      rw [hany db r hex]
      simp
  refine ⟨?_, ?_, ?_⟩
  · intro db hreach
    exact (reachable_resultsWF db hreach).imp fun hab => hab.1
  · intro db r hex
    obtain ⟨e, he⟩ := herr db r hex
    refine ⟨⟨e, he⟩, ?_, ?_⟩ <;> simp [resultsPostHandler, he]
  · intro db r fx hmem hid hex
    have hf : (db.fixtures.find? fun f => f.id == r.fixtureId).isSome := by
      rw [List.find?_isSome]
      exact ⟨fx, hmem, by rw [hid]; exact beq_self_eq_true _⟩
    obtain ⟨fx0, hfx0⟩ := Option.isSome_iff_exists.mp hf
    unfold resultCreate
    rw [hfx0, hany db r hex]
    simp

/-- C9 witness: the state reached by creating sampleFixture and posting
sampleResult satisfies the invariant, and posting a second result for the
same fixture fails with the uniqueness violation while the state is
unchanged. -/
theorem result_per_fixture_unique_witness :
    AtMostOneResultPerFixture sampleDbWithResult ∧
    resultCreate sampleDbWithResult { sampleResult with id := "r2" } =
      Except.error PrismaError.uniqueViolation ∧
    (resultsPostHandler sampleDbWithResult
      { sampleResult with id := "r2" }).db = sampleDbWithResult := by
  have h1 : Reachable sampleDbNoResult :=
    Reachable.fixtureCreated { fixtures := [], results := [] } sampleFixture
      Reachable.init
  have h2 : Reachable sampleDbWithResult :=
    Reachable.resultPosted sampleDbNoResult sampleResult h1
  have hex : ∃ x ∈ sampleDbWithResult.results,
      x.fixtureId = ({ sampleResult with id := "r2" } : ResultRecord).fixtureId :=
    ⟨sampleResult, by simp [sampleDbWithResult], rfl⟩
  refine ⟨result_per_fixture_unique.1 sampleDbWithResult h2, ?_, ?_⟩
  · exact result_per_fixture_unique.2.2 sampleDbWithResult
      { sampleResult with id := "r2" } sampleFixture
      (by simp [sampleDbWithResult]) rfl hex
  · exact (result_per_fixture_unique.2.1 sampleDbWithResult
      { sampleResult with id := "r2" } hex).2.1

end SportsBackend
